import Mathlib

/-!
Verification of the multi-tenant credential and request-resolution core of
the Voice_Agent repository (`app/calendar_service.py`, `app/vapi_utils.py`,
`app/routes/tools.py`), as a shallow embedding in Lean 4.

Modelling conventions:
  * Python dictionaries with string keys are modelled observationally as
    association lists whose `get` finds the first matching key and whose
    `del`/assignment remove every old entry for the key.
  * The monotonic clock (`time.monotonic`) is modelled as an `Int` passed
    explicitly to each operation.
  * Remote calls (Google token refresh, OAuth code exchange, userinfo) and
    the SQLite credential store are oracles packed in an `Env` record;
    a `none` result of an oracle models the call raising an exception,
    which the Python code catches.
  * Side effects on the credential store are recorded as an explicit trace
    of `Effect` values, replayed onto a `Global` state by `applyEffects`.
-/

namespace VoiceAgent

/-! ## CSRF state store (`calendar_service.py` lines 56-88)

`_pending_states : dict[str, float]` maps a token to its expiry instant. -/

abbrev StateMap := List (String × Int)

/-- Python `m.get(k)` on a dict: first entry with key `k`. -/
def dictGet (m : StateMap) (k : String) : Option Int :=
  (m.find? (fun p => p.1 == k)).map Prod.snd

/-- Python `del m[k]` on a dict: drop every entry with key `k`. -/
def dictDel (m : StateMap) (k : String) : StateMap :=
  m.filter (fun p => !(p.1 == k))

/-- Python `m[k] = v` on a dict: replace any old binding of `k`. -/
def dictInsert (m : StateMap) (k : String) (v : Int) : StateMap :=
  dictDel m k ++ [(k, v)]

def STATE_TTL_SECONDS : Int := 600

/-- Model of `_issue_state_token`, with the fresh token and the current monotonic
time passed in: prune every expired entry (`now > exp`), then register
`token -> now + _STATE_TTL_SECONDS`. -/
def issue_state_token (now : Int) (token : String) (m : StateMap) : StateMap :=
  dictInsert (m.filter (fun p => decide (¬ now > p.2))) token (now + STATE_TTL_SECONDS)

/-- Model of `validate_and_consume_state(token)` at monotonic time `now`: returns
the boolean result and the updated token map. -/
def validate_and_consume_state (now : Int) (m : StateMap) (token : String) :
    Bool × StateMap :=
  if token = "" then (false, m)
  else
    match dictGet m token with
    | none => (false, m)
    | some expiry =>
      let m' := dictDel m token
      if now > expiry then (false, m') else (true, m')

theorem dictGet_cons_eq (p : String × Int) (t : StateMap) (k : String)
    (hp : p.1 = k) : dictGet (p :: t) k = some p.2 := by
  unfold dictGet
  rw [List.find?_cons_of_pos _ (by simp [hp])]
  rfl

theorem dictGet_cons_ne (p : String × Int) (t : StateMap) (k : String)
    (hp : ¬ p.1 = k) : dictGet (p :: t) k = dictGet t k := by
  unfold dictGet
  rw [List.find?_cons_of_neg _ (by simp [hp])]

theorem dictGet_dictDel_self (m : StateMap) (k : String) :
    dictGet (dictDel m k) k = none := by
  induction m with
  | nil => rfl
  | cons p t ih =>
    by_cases h : p.1 = k
    · simpa [dictDel, List.filter_cons, h] using ih
    · have : dictDel (p :: t) k = p :: dictDel t k := by
        simp [dictDel, List.filter_cons, h]
      rw [this, dictGet_cons_ne p _ k h]
      exact ih

theorem dictGet_append_right (m m' : StateMap) (k : String)
    (h : dictGet m k = none) : dictGet (m ++ m') k = dictGet m' k := by
  induction m with
  | nil => rfl
  | cons p t ih =>
    by_cases hp : p.1 = k
    · rw [dictGet_cons_eq p t k hp] at h
      exact absurd h (by simp)
    · rw [dictGet_cons_ne p t k hp] at h
      rw [List.cons_append, dictGet_cons_ne p _ k hp]
      exact ih h

theorem dictGet_dictInsert_self (m : StateMap) (k : String) (v : Int) :
    dictGet (dictInsert m k v) k = some v := by
  unfold dictInsert
  rw [dictGet_append_right _ _ _ (dictGet_dictDel_self m k)]
  exact dictGet_cons_eq (k, v) [] k rfl

/-- C3: emptiness/absence gives `false` with no mutation; a present token is
removed unconditionally, so a second call with the same token returns
`false` whatever the first call returned. -/
theorem validate_and_consume_one_time (m : StateMap) (t : String) (now now2 : Int) :
    ((t = "" ∨ dictGet m t = none) → validate_and_consume_state now m t = (false, m)) ∧
    (∀ e, ¬ t = "" → dictGet m t = some e →
      (validate_and_consume_state now m t).2 = dictDel m t ∧
      (validate_and_consume_state now2 (validate_and_consume_state now m t).2 t).1 = false) := by
  constructor
  · rintro (h | h)
    · simp [validate_and_consume_state, h]
    · by_cases ht : t = ""
      · simp [validate_and_consume_state, ht]
      · simp [validate_and_consume_state, ht, h]
  · intro e ht he
    have hsnd : (validate_and_consume_state now m t).2 = dictDel m t := by
      by_cases hexp : now > e
      · simp [validate_and_consume_state, ht, he, hexp]
      · simp [validate_and_consume_state, ht, he, hexp]
    refine ⟨hsnd, ?_⟩
    rw [hsnd]
    simp [validate_and_consume_state, ht, dictGet_dictDel_self]

/-- Witness for `validate_and_consume_one_time` at a concrete map. -/
theorem validate_and_consume_one_time_witness :
    (validate_and_consume_state 5 [("tok", 600)] "tok").2 = dictDel [("tok", 600)] "tok" ∧
    (validate_and_consume_state 7 (validate_and_consume_state 5 [("tok", 600)] "tok").2 "tok").1 = false :=
  (validate_and_consume_one_time [("tok", 600)] "tok" 5 7).2 600 (by decide) (by decide)

/-- C4: a token issued at `issued` is registered with expiry
`issued + 600`; validation at `now` succeeds exactly when the token is
present (and non-empty) with `now ≤ expiry`; an expired-but-present token
is consumed and reported invalid. -/
theorem validate_and_consume_ttl (m : StateMap) (t : String) (now : Int) :
    ((validate_and_consume_state now m t).1 = true ↔
      (¬ t = "" ∧ ∃ e, dictGet m t = some e ∧ now ≤ e)) ∧
    (∀ issued, dictGet (issue_state_token issued t m) t = some (issued + STATE_TTL_SECONDS)) ∧
    (∀ e, ¬ t = "" → dictGet m t = some e → now > e →
      validate_and_consume_state now m t = (false, dictDel m t)) := by
  refine ⟨?_, ?_, ?_⟩
  · constructor
    · intro h
      by_cases ht : t = ""
      · simp [validate_and_consume_state, ht] at h
      · rcases hg : dictGet m t with _ | e
        · simp [validate_and_consume_state, ht, hg] at h
        · by_cases hexp : now > e
          · simp [validate_and_consume_state, ht, hg, hexp] at h
          · exact ⟨ht, e, rfl, le_of_not_lt hexp⟩
    · rintro ⟨ht, e, hg, hle⟩
      simp [validate_and_consume_state, ht, hg, not_lt.mpr hle]
  · intro issued
    exact dictGet_dictInsert_self _ t _
  · intro e ht hg hexp
    simp [validate_and_consume_state, ht, hg, hexp]

/-- Witness for `validate_and_consume_ttl` at a concrete map and times. -/
theorem validate_and_consume_ttl_witness :
    (validate_and_consume_state 600 [("tok", 600)] "tok").1 = true ∧
    validate_and_consume_state 601 [("tok", 0 + STATE_TTL_SECONDS)] "tok" =
      (false, dictDel [("tok", 0 + STATE_TTL_SECONDS)] "tok") := by
  constructor
  · exact (validate_and_consume_ttl [("tok", 600)] "tok" 600).1.mpr
      ⟨by decide, 600, by decide, by decide⟩
  · exact (validate_and_consume_ttl [("tok", 0 + STATE_TTL_SECONDS)] "tok" 601).2.2
      (0 + STATE_TTL_SECONDS) (by decide) (by decide) (by decide)

/-! ## Credentials, email validation and the per-tenant client
(`calendar_service.py` lines 53-54 and 204-228) -/

/-- Model of `google.oauth2.credentials.Credentials`, restricted to the fields the
service reads: the access token (`None`-able), the refresh token and the
expiry flag. -/
structure Creds where
  token : Option String
  refresh_token : Option String
  expired : Bool
deriving DecidableEq, Repr

/-- Property `Credentials.valid` in the Google auth library:
`self.token is not None and not self.expired`. -/
def Creds.valid (c : Creds) : Bool := c.token.isSome && !c.expired

/-- ASCII character class `[a-zA-Z0-9]`. -/
def isAsciiAlnum (c : Char) : Bool :=
  ('a' ≤ c && c ≤ 'z') || ('A' ≤ c && c ≤ 'Z') || ('0' ≤ c && c ≤ '9')

/-- Character class of the local part, `[a-zA-Z0-9_.+-]`. -/
def isLocalChar (c : Char) : Bool :=
  isAsciiAlnum c || c = '_' || c = '.' || c = '+' || c = '-'

/-- Character class of the first domain label, `[a-zA-Z0-9-]`. -/
def isDomainChar (c : Char) : Bool := isAsciiAlnum c || c = '-'

/-- Character class after the mandatory dot, `[a-zA-Z0-9-.]`. -/
def isTailChar (c : Char) : Bool := isAsciiAlnum c || c = '-' || c = '.'

/-- Model of `_EMAIL_RE.match(email)` as a boolean, for the anchored pattern
`[a-zA-Z0-9_.+-]+@[a-zA-Z0-9-]+\.[a-zA-Z0-9-.]+` between the anchors.
Since `@` is not a local character and `.` is not a domain character, the
greedy matches are forced and the regex is equivalent to this split.  A
Python `$` also matches just before one final newline, hence the initial
drop. -/
def matchEmail (s : String) : Bool :=
  let l := if (s.data).getLast? = some '\n' then (s.data).dropLast else s.data
  let loc := l.takeWhile isLocalChar
  match l.dropWhile isLocalChar with
  | '@' :: rest2 =>
    let dom := rest2.takeWhile isDomainChar
    match rest2.dropWhile isDomainChar with
    | '.' :: tail =>
      !loc.isEmpty && !dom.isEmpty && !tail.isEmpty && tail.all isTailChar
    | _ => false
  | _ => false

/-- One traced side effect on the external credential store or the remote
OAuth endpoints. -/
inductive Effect where
  | storeGet (email : String)
  | refreshCall
  | storeUpdate (email : String) (blob : String)
  | storeSave (email : String) (blob : String) (displayName : Option String)
deriving DecidableEq, Repr

def Effect.isStoreUpdate : Effect → Bool
  | .storeUpdate _ _ => true
  | _ => false

def Effect.isRefreshCall : Effect → Bool
  | .refreshCall => true
  | _ => false

/-- Oracles for everything outside the service: the SQLite-backed store
read, credential (de)serialization, and the remote Google calls.  A `none`
result models the corresponding Python call raising an exception. -/
structure Env where
  store : String → Option String
  deserialize : String → Option Creds
  refresh : Creds → Option Creds
  to_json : Creds → String
  fetch_token : String → Option Creds
  userinfo : Creds → Option (String × String)

/-- Model of `CalendarClient(creds, email)`: the bound per-tenant client. -/
structure CalendarClient where
  creds : Creds
  email : String
deriving DecidableEq, Repr

/-- Model of `GoogleCalendarService.get_client_for_user(email)`, returning the
optional client together with the trace of store/remote effects. -/
def get_client_for_user (env : Env) (email : String) :
    Option CalendarClient × List Effect :=
  if !matchEmail email then (none, [])
  else
    match env.store email with
    | none => (none, [Effect.storeGet email])
    | some tj =>
      if tj = "" then (none, [Effect.storeGet email])
      else
        match env.deserialize tj with
        | none => (none, [Effect.storeGet email])
        | some creds =>
          if creds.expired && creds.refresh_token.isSome then
            match env.refresh creds with
            | none => (none, [Effect.storeGet email, Effect.refreshCall])
            | some creds' =>
              let effs := [Effect.storeGet email, Effect.refreshCall,
                Effect.storeUpdate email (env.to_json creds')]
              if creds'.valid then (some ⟨creds', email⟩, effs) else (none, effs)
          else
            if creds.valid then (some ⟨creds, email⟩, [Effect.storeGet email])
            else (none, [Effect.storeGet email])

/-- C5: a malformed identity is rejected before any store access: the
result is absent and the effect trace is empty. -/
theorem get_client_malformed_email_no_store (env : Env) (email : String)
    (h : matchEmail email = false) :
    get_client_for_user env email = (none, []) := by
  simp [get_client_for_user, h]

/-- Witness for `get_client_malformed_email_no_store`. -/
theorem get_client_malformed_email_no_store_witness :
    get_client_for_user
      { store := fun _ => some "blob", deserialize := fun _ => none,
        refresh := fun c => some c, to_json := fun _ => "j",
        fetch_token := fun _ => none, userinfo := fun _ => none }
      "not an email" = (none, []) :=
  get_client_malformed_email_no_store _ "not an email" (by decide)

/-! ## Replaying effect traces onto the external store and the default slot -/

/-- The externally visible mutable state: the credential store (blob and
display name per email, as in the `users` table) and the Default
Credential Holder's slot (`_default_creds` and the service built over it,
modelled by the credential it is bound to). -/
structure Global where
  store : String → Option String
  names : String → Option String
  default_creds : Option Creds
  default_service : Option Creds

/-- Replay one effect.  `storeUpdate` models `update_user_token`, a SQL
`UPDATE` that is a no-op when the row is absent; `storeSave` models
`save_user_credentials`, an upsert whose name is `COALESCE`d. -/
def applyEffect (g : Global) : Effect → Global
  | .storeGet _ => g
  | .refreshCall => g
  | .storeUpdate e b =>
    if (g.store e).isSome then
      { g with store := fun k => if k = e then some b else g.store k }
    else g
  | .storeSave e b n =>
    { g with
      store := fun k => if k = e then some b else g.store k,
      names := fun k => if k = e then (match n with | some nm => some nm | none => g.names k)
        else g.names k }

def applyEffects (g : Global) (l : List Effect) : Global :=
  l.foldl applyEffect g

/-- C6: a stored credential that deserializes as expired with a refresh
token, whose remote refresh succeeds and yields a valid credential, leads
to exactly one refresh call and exactly one persisted update (of the
refreshed serialized form), and the returned client is bound to the
refreshed credential. -/
theorem get_client_refresh_once (env : Env) (email tj : String) (creds creds' : Creds)
    (hmail : matchEmail email = true)
    (hstore : env.store email = some tj) (htj : ¬ tj = "")
    (hde : env.deserialize tj = some creds)
    (hexp : creds.expired = true) (hrt : creds.refresh_token.isSome = true)
    (href : env.refresh creds = some creds') (hval : creds'.valid = true) :
    get_client_for_user env email =
      (some ⟨creds', email⟩, [Effect.storeGet email, Effect.refreshCall,
        Effect.storeUpdate email (env.to_json creds')]) ∧
    ((get_client_for_user env email).2.countP Effect.isRefreshCall = 1) ∧
    ((get_client_for_user env email).2.countP Effect.isStoreUpdate = 1) := by
  have hmain : get_client_for_user env email =
      (some ⟨creds', email⟩, [Effect.storeGet email, Effect.refreshCall,
        Effect.storeUpdate email (env.to_json creds')]) := by
    simp [get_client_for_user, hmail, hstore, htj, hde, hexp, hrt, href, hval]
  refine ⟨hmain, ?_, ?_⟩
  · rw [hmain]
    simp [List.countP, List.countP.go, Effect.isRefreshCall, Effect.isStoreUpdate]
  · rw [hmain]
    simp [List.countP, List.countP.go, Effect.isRefreshCall, Effect.isStoreUpdate]

/-- A concrete environment holding one expired-but-refreshable credential
for `alice@example.com`, used by the witnesses below. -/
def wExpiredCreds : Creds := { token := some "old", refresh_token := some "r", expired := true }

def wFreshCreds : Creds := { token := some "new", refresh_token := some "r", expired := false }

def wEnvRefreshOk : Env :=
  { store := fun e => if e = "alice@example.com" then some "stored.json" else none,
    deserialize := fun tj => if tj = "stored.json" then some wExpiredCreds else none,
    refresh := fun _ => some wFreshCreds,
    to_json := fun c => if c = wFreshCreds then "fresh.json" else "other.json",
    fetch_token := fun _ => none,
    userinfo := fun _ => none }

/-- Witness for `get_client_refresh_once`. -/
theorem get_client_refresh_once_witness :
    get_client_for_user wEnvRefreshOk "alice@example.com" =
      (some ⟨wFreshCreds, "alice@example.com"⟩,
        [Effect.storeGet "alice@example.com", Effect.refreshCall,
          Effect.storeUpdate "alice@example.com" (wEnvRefreshOk.to_json wFreshCreds)]) :=
  (get_client_refresh_once wEnvRefreshOk "alice@example.com" "stored.json"
    wExpiredCreds wFreshCreds (by decide) (by decide) (by decide) (by decide)
    (by decide) (by decide) (by decide) (by decide)).1

/-- C9: if the remote refresh raises, the lookup catches the exception,
returns absent, and performs no persisted update: replaying its effect
trace leaves the whole external state unchanged. -/
theorem get_client_refresh_failure_no_persist (env : Env) (email tj : String) (creds : Creds)
    (hmail : matchEmail email = true)
    (hstore : env.store email = some tj) (htj : ¬ tj = "")
    (hde : env.deserialize tj = some creds)
    (hexp : creds.expired = true) (hrt : creds.refresh_token.isSome = true)
    (href : env.refresh creds = none) :
    get_client_for_user env email = (none, [Effect.storeGet email, Effect.refreshCall]) ∧
    (∀ g : Global, applyEffects g (get_client_for_user env email).2 = g) := by
  have hmain : get_client_for_user env email =
      (none, [Effect.storeGet email, Effect.refreshCall]) := by
    simp [get_client_for_user, hmail, hstore, htj, hde, hexp, hrt, href]
  refine ⟨hmain, ?_⟩
  intro g
  rw [hmain]
  rfl

def wEnvRefreshFail : Env :=
  { store := fun e => if e = "alice@example.com" then some "stored.json" else none,
    deserialize := fun tj => if tj = "stored.json" then some wExpiredCreds else none,
    refresh := fun _ => none,
    to_json := fun _ => "j",
    fetch_token := fun _ => none,
    userinfo := fun _ => none }

/-- Witness for `get_client_refresh_failure_no_persist`. -/
theorem get_client_refresh_failure_no_persist_witness :
    get_client_for_user wEnvRefreshFail "alice@example.com" =
      (none, [Effect.storeGet "alice@example.com", Effect.refreshCall]) :=
  (get_client_refresh_failure_no_persist wEnvRefreshFail "alice@example.com"
    "stored.json" wExpiredCreds (by decide) (by decide) (by decide) (by decide)
    (by decide) (by decide) (by decide)).1

/-! ## Default credential holder and client resolver
(`calendar_service.py` lines 163-253) -/

/-- The mutable state of `GoogleCalendarService`: `_default_creds` and
`_default_service` (the latter modelled by the credential it was built
over). -/
structure ServiceState where
  default_creds : Option Creds
  default_service : Option Creds
deriving DecidableEq, Repr

/-- The `is_authenticated` property: under the lock, refresh the default
credential in place when it is expired and refreshable (rebuilding the
bound service), returning `False` if the refresh raises; then report
whether a credential is present and valid.  The effect trace records
remote refresh calls. -/
def is_authenticated (env : Env) (st : ServiceState) :
    Bool × ServiceState × List Effect :=
  match st.default_creds with
  | none => (false, st, [])
  | some c =>
    if c.expired && c.refresh_token.isSome then
      match env.refresh c with
      | none => (false, st, [Effect.refreshCall])
      | some c' => (c'.valid, ⟨some c', some c'⟩, [Effect.refreshCall])
    else (c.valid, st, [])

/-- Model of `get_default_client`: a client over the default slot when
`is_authenticated`, else absent. -/
def get_default_client (env : Env) (st : ServiceState) :
    Option CalendarClient × ServiceState × List Effect :=
  let r := is_authenticated env st
  (if r.1 then (r.2.1.default_creds).map (fun c => ⟨c, "default"⟩) else none,
    r.2.1, r.2.2)

/-- Model of `resolve_client(email)`: with a truthy (non-empty) email, strictly the
per-tenant lookup; otherwise the default client. -/
def resolve_client (env : Env) (st : ServiceState) (email : Option String) :
    Option CalendarClient × ServiceState × List Effect :=
  match email with
  | some e =>
    if e = "" then get_default_client env st
    else ((get_client_for_user env e).1, st, (get_client_for_user env e).2)
  | none => get_default_client env st

theorem get_client_store_absent (env : Env) (e : String)
    (h : env.store e = none) : (get_client_for_user env e).1 = none := by
  by_cases hm : matchEmail e
  · simp [get_client_for_user, hm, h]
  · simp [get_client_for_user, hm]

/-- C1: with a non-empty identity, `resolve_client` returns exactly the
per-tenant result, does not touch the default slot, is independent of the
default slot's contents, and is absent whenever the store holds no
credential for the tenant; with no identity it returns exactly
`get_default_client`. -/
theorem resolve_client_strict (env : Env) (st : ServiceState) (e : String)
    (h : ¬ e = "") :
    (resolve_client env st (some e)).1 = (get_client_for_user env e).1 ∧
    (resolve_client env st (some e)).2.1 = st ∧
    (∀ st2, (resolve_client env st2 (some e)).1 = (resolve_client env st (some e)).1) ∧
    (env.store e = none → (resolve_client env st (some e)).1 = none) ∧
    (∀ st3, resolve_client env st3 none = get_default_client env st3) := by
  refine ⟨by simp [resolve_client, h], by simp [resolve_client, h], ?_, ?_, fun _ => rfl⟩
  · intro st2
    simp [resolve_client, h]
  · intro hstore
    simp [resolve_client, h, get_client_store_absent env e hstore]

def wDefaultState : ServiceState :=
  { default_creds := some wFreshCreds, default_service := some wFreshCreds }

/-- Witness for `resolve_client_strict`: a tenant with no stored
credential resolves to absent even though a valid default exists. -/
theorem resolve_client_strict_witness :
    (resolve_client wEnvRefreshOk wDefaultState (some "bob@example.com")).1 = none :=
  (resolve_client_strict wEnvRefreshOk wDefaultState "bob@example.com"
    (by decide)).2.2.2.1 (by decide)

/-- C10: the empty-string identity is falsy in Python, so `resolve_client`
takes the default branch exactly as when the identity is omitted; the
strict per-tenant branch is reserved for non-empty identities. -/
theorem resolve_client_empty_identity (env : Env) (st : ServiceState) :
    resolve_client env st (some "") = get_default_client env st ∧
    resolve_client env st none = get_default_client env st ∧
    (∀ e, ¬ e = "" →
      resolve_client env st (some e) =
        ((get_client_for_user env e).1, st, (get_client_for_user env e).2)) := by
  refine ⟨by simp [resolve_client], rfl, ?_⟩
  intro e he
  simp [resolve_client, he]

/-- Witness for `resolve_client_empty_identity`. -/
theorem resolve_client_empty_identity_witness :
    resolve_client wEnvRefreshOk wDefaultState (some "") =
      get_default_client wEnvRefreshOk wDefaultState :=
  (resolve_client_empty_identity wEnvRefreshOk wDefaultState).1

/-- C8: with a present, non-expired default credential (with token
material), `is_authenticated` returns `true`, leaves the state unchanged,
and performs no refresh call — so a second invocation also returns `true`
with zero refresh calls. -/
theorem is_authenticated_idempotent (env : Env) (st : ServiceState) (c : Creds)
    (hc : st.default_creds = some c) (hexp : c.expired = false)
    (htok : c.token.isSome = true) :
    is_authenticated env st = (true, st, []) ∧
    is_authenticated env (is_authenticated env st).2.1 = (true, st, []) ∧
    (is_authenticated env (is_authenticated env st).2.1).2.2.countP
      Effect.isRefreshCall = 0 := by
  have h1 : is_authenticated env st = (true, st, []) := by
    simp [is_authenticated, hc, hexp, Creds.valid, htok]
  refine ⟨h1, ?_, ?_⟩
  · rw [h1]
    exact h1
  · rw [h1]
    rw [h1]
    rfl

/-- Witness for `is_authenticated_idempotent`. -/
theorem is_authenticated_idempotent_witness :
    is_authenticated wEnvRefreshOk wDefaultState = (true, wDefaultState, []) ∧
    is_authenticated wEnvRefreshOk
      (is_authenticated wEnvRefreshOk wDefaultState).2.1 = (true, wDefaultState, []) :=
  ⟨(is_authenticated_idempotent wEnvRefreshOk wDefaultState wFreshCreds rfl
      (by decide) (by decide)).1,
    (is_authenticated_idempotent wEnvRefreshOk wDefaultState wFreshCreds rfl
      (by decide) (by decide)).2.1⟩

/-! ## OAuth callback (`calendar_service.py` lines 280-313) -/

/-- Model of `handle_callback(authorization_code)`: exchange the code, read the
authenticated identity from the userinfo endpoint, and persist the
credential to the store only.  Any raised exception and a missing email
yield `None` with nothing persisted. -/
def handle_callback (env : Env) (code : String) : Option String × List Effect :=
  match env.fetch_token code with
  | none => (none, [])
  | some creds =>
    match env.userinfo creds with
    | none => (none, [])
    | some (email, name) =>
      if email = "" then (none, [])
      else (some email, [Effect.storeSave email (env.to_json creds) (some name)])

/-- C2: whatever the outcome of the exchange, replaying the callback's
effects leaves the default credential slot and its bound service
unchanged; on success the only effect is a single store save keyed by the
authenticated identity, which changes the store at no other key. -/
theorem handle_callback_frame (env : Env) (code : String) :
    (∀ g : Global,
      (applyEffects g (handle_callback env code).2).default_creds = g.default_creds ∧
      (applyEffects g (handle_callback env code).2).default_service = g.default_service) ∧
    (∀ email, (handle_callback env code).1 = some email →
      ∃ blob nm, (handle_callback env code).2 = [Effect.storeSave email blob (some nm)] ∧
        ∀ g : Global,
          (applyEffects g (handle_callback env code).2).store email = some blob ∧
          ∀ k, ¬ k = email →
            (applyEffects g (handle_callback env code).2).store k = g.store k ∧
            (applyEffects g (handle_callback env code).2).names k = g.names k) := by
  rcases hft : env.fetch_token code with _ | creds
  · constructor
    · intro g
      simp [handle_callback, hft, applyEffects]
    · intro email hsu
      simp [handle_callback, hft] at hsu
  · rcases hui : env.userinfo creds with _ | p
    · constructor
      · intro g
        simp [handle_callback, hft, hui, applyEffects]
      · intro email hsu
        simp [handle_callback, hft, hui] at hsu
    · rcases p with ⟨email0, name0⟩
      by_cases he : email0 = ""
      · constructor
        · intro g
          simp [handle_callback, hft, hui, he, applyEffects]
        · intro email hsu
          simp [handle_callback, hft, hui, he] at hsu
      · have hmain : handle_callback env code =
            (some email0, [Effect.storeSave email0 (env.to_json creds) (some name0)]) := by
          simp [handle_callback, hft, hui, he]
        constructor
        · intro g
          rw [hmain]
          simp [applyEffects, applyEffect]
        · intro email hsu
          rw [hmain] at hsu
          simp at hsu
          subst hsu
          refine ⟨env.to_json creds, name0, by rw [hmain], ?_⟩
          intro g
          rw [hmain]
          constructor
          · simp [applyEffects, applyEffect]
          · intro k hk
            constructor
            · simp [applyEffects, applyEffect, hk]
            · simp [applyEffects, applyEffect, hk]

def wEnvCallback : Env :=
  { store := fun _ => none,
    deserialize := fun _ => none,
    refresh := fun _ => none,
    to_json := fun _ => "granted.json",
    fetch_token := fun _ => some wFreshCreds,
    userinfo := fun _ => some ("alice@example.com", "Alice") }

def wGlobal : Global :=
  { store := fun _ => none, names := fun _ => none,
    default_creds := some wFreshCreds, default_service := some wFreshCreds }

/-- Witness for `handle_callback_frame`. -/
theorem handle_callback_frame_witness :
    (applyEffects wGlobal (handle_callback wEnvCallback "code").2).default_creds =
      wGlobal.default_creds ∧
    (applyEffects wGlobal (handle_callback wEnvCallback "code").2).default_service =
      wGlobal.default_service :=
  (handle_callback_frame wEnvCallback "code").1 wGlobal

/-! ## Tool endpoints (`vapi_utils.py` and `routes/tools.py`)

The spoken message texts are abridged to short ASCII constants; the claims
under verification concern only the transport status and the response
shape, never the wording. -/

structure ToolResult where
  toolCallId : String
  result : String
deriving DecidableEq, Repr

/-- A `JSONResponse`: its HTTP status, and either a tool-result payload
(`results` key) or an error payload (`error` key). -/
structure Response where
  status : Nat
  results : Option (List ToolResult)
  error : Option String
deriving DecidableEq, Repr

/-- Model of `tool_response(tool_call_id, result)`: a `JSONResponse` with FastAPI
default status 200 wrapping one result. -/
def tool_response (tcId msg : String) : Response :=
  { status := 200, results := some [⟨tcId, msg⟩], error := none }

/-- The 400 response produced when no tool call can be extracted. -/
def invalid_tool_call_response : Response :=
  { status := 400, results := none, error := some "Invalid tool call" }

/-- A tool call: its id and its raw (unvalidated) arguments object,
opaque here. -/
structure ToolCall where
  id : String
  arguments : String
deriving DecidableEq, Repr

/-- The parts of the request body that `extract_tool_call` inspects. -/
structure VapiBody where
  message_toolCalls : List ToolCall
  message_toolCall : Option ToolCall
  body_function : Option ToolCall
deriving DecidableEq, Repr

/-- Model of `extract_tool_call(body)`: first of `message.toolCalls`, else
`message.toolCall`, else the body itself when it has a `function` key. -/
def extract_tool_call (b : VapiBody) : Option ToolCall :=
  match b.message_toolCalls with
  | tc :: _ => some tc
  | [] =>
    match b.message_toolCall with
    | some tc => some tc
    | none => b.body_function

structure ScheduleEventArgs where
  name : String
  date : String
  time : String
  title : Option String
  duration_minutes : Int
  timezone : String
deriving DecidableEq, Repr

structure CheckAvailabilityArgs where
  date : String
  time : String
  duration_minutes : Int
deriving DecidableEq, Repr

structure AvailableSlotsArgs where
  date : String
  preferred_period : String
deriving DecidableEq, Repr

/-- A calendar event as the endpoints see it: provider id and link,
optional summary, all-day flag and its time span in minutes. -/
structure EventInfo where
  id : String
  htmlLink : String
  summary : Option String
  allDay : Bool
  startMin : Int
  endMin : Int
deriving DecidableEq, Repr

/-- Oracles for the endpoint collaborators: Pydantic validation (`none`
models a validation exception), the `is_authenticated` snapshot, the
datetime parser (`none` models `ValueError`), the conflict query and the
event creation per attempt (`none` models a raised exception). -/
structure ToolEnv where
  parse_schedule : String → Option ScheduleEventArgs
  parse_check : String → Option CheckAvailabilityArgs
  parse_slots : String → Option AvailableSlotsArgs
  authenticated : Bool
  parse_dt : String → String → String → Option Int
  check_conflicts : Int → Int → Option (List EventInfo)
  create_event : Nat → Option EventInfo

/-- Endpoint `/tools/api/v1/schedule-event` after successful extraction: validate,
auth-check, parse datetime, check conflicts (failing open on exception),
create with one retry, always answering through `tool_response`.  The
booking-log write is swallowed by its own `try` and does not influence
the response. -/
def schedule_event_body (env : ToolEnv) (tc : ToolCall) : Response :=
  match env.parse_schedule tc.arguments with
  | none => tool_response tc.id "I could not understand the scheduling details. Could you repeat that?"
  | some args =>
    if !env.authenticated then
      tool_response tc.id "The calendar is not connected yet. Please ask the administrator to set it up."
    else
      match env.parse_dt args.date args.time args.timezone with
      | none => tool_response tc.id "I could not quite understand that date or time. Could you say it once more?"
      | some start =>
        let conflicts := env.check_conflicts start (start + args.duration_minutes)
        match conflicts with
        | some (c :: _) =>
          tool_response tc.id ("There is a conflict - you already have "
            ++ (c.summary.getD "another event") ++ " at that time. Would you like to pick a different time?")
        | _ =>
          let event_title := match args.title with
            | some t => t
            | none => "Meeting with " ++ args.name
          match env.create_event 0 with
          | some _ => tool_response tc.id ("Done! " ++ event_title ++ " is confirmed. It is on your Google Calendar.")
          | none =>
            match env.create_event 1 with
            | some _ => tool_response tc.id ("Done! " ++ event_title ++ " is confirmed. It is on your Google Calendar.")
            | none => tool_response tc.id "I am having a small technical hiccup with the calendar. Could we try a different time?"

def schedule_event (env : ToolEnv) (b : VapiBody) : Response :=
  match extract_tool_call b with
  | none => invalid_tool_call_response
  | some tc => schedule_event_body env tc

/-- Endpoint `/tools/api/v1/check-availability` after successful extraction.  The
`ValueError` of the parser and any other exception of the conflict query
land in distinct `except` arms, both of which answer via `tool_response`. -/
def check_availability_body (env : ToolEnv) (tc : ToolCall) : Response :=
  match env.parse_check tc.arguments with
  | none => tool_response tc.id "I could not understand that. Could you try again?"
  | some args =>
    if !env.authenticated then tool_response tc.id "Calendar not connected."
    else
      match env.parse_dt args.date args.time "America/New_York" with
      | none => tool_response tc.id "I could not understand that date or time. Could you try again?"
      | some start =>
        match env.check_conflicts start (start + args.duration_minutes) with
        | none => tool_response tc.id "I am having trouble checking the calendar right now."
        | some (c :: _) =>
          tool_response tc.id ("That slot is not available - there is "
            ++ (c.summary.getD "another event") ++ " at that time.")
        | some [] => tool_response tc.id "That slot is available! Shall I go ahead and book it?"

def check_availability (env : ToolEnv) (b : VapiBody) : Response :=
  match extract_tool_call b with
  | none => invalid_tool_call_response
  | some tc => check_availability_body env tc

/-- Lookup `period_ranges.get(preferred_period, (9, 18))` in hours. -/
def period_range (p : String) : Int × Int :=
  if p = "morning" then (9, 12)
  else if p = "afternoon" then (12, 17)
  else if p = "evening" then (17, 20)
  else (9, 18)

/-- The slot-search loop of `available_slots`, on minutes: try successive
30-minute slots, skipping to the end of the first overlapping busy span,
collecting at most 3 free starts.  Each iteration strictly advances
`current` by at least one minute, so the fuel passed by the caller is
enough for the loop to run to completion. -/
def findSlots : Nat → List (Int × Int) → Int → Int → List Int → List Int
  | 0, _, _, _, acc => acc.reverse
  | fuel + 1, busy, searchEnd, current, acc =>
    if current + 30 ≤ searchEnd ∧ acc.length < 3 then
      let slotEnd := current + 30
      match busy.find? (fun bi => decide (current < bi.2) && decide (slotEnd > bi.1)) with
      | some bi =>
        let next := if bi.2 = slotEnd then bi.2 + 30 else bi.2
        findSlots fuel busy searchEnd next acc
      | none => findSlots fuel busy searchEnd (current + 60) (current :: acc)
    else acc.reverse

/-- Endpoint `/tools/api/v1/available-slots` after successful extraction.  This
endpoint has no dedicated `ValueError` arm, so a parse failure lands in
the generic exception arm.  Events carrying a whole-day `date` abort with
the all-day message; the rest contribute busy spans. -/
def available_slots_body (env : ToolEnv) (tc : ToolCall) : Response :=
  match env.parse_slots tc.arguments with
  | none => tool_response tc.id "I could not understand that. Could you try again?"
  | some args =>
    if !env.authenticated then tool_response tc.id "Calendar not connected."
    else
      match env.parse_dt args.date "9:00 AM" "America/New_York" with
      | none => tool_response tc.id "I am having trouble checking the schedule. Could you suggest a specific time?"
      | some base =>
        let pr := period_range args.preferred_period
        let dayStart := (base / 1440) * 1440
        let searchStart := dayStart + pr.1 * 60
        let searchEnd := dayStart + pr.2 * 60
        match env.check_conflicts searchStart searchEnd with
        | none => tool_response tc.id "I am having trouble checking the schedule. Could you suggest a specific time?"
        | some events =>
          if events.any (fun e => e.allDay) then
            tool_response tc.id ("It looks like you have an all-day event on " ++ args.date ++ ". Would you like to try a different day?")
          else
            let busy := (events.filter (fun e => !e.allDay)).map (fun e => (e.startMin, e.endMin))
            let avail := findSlots ((searchEnd - searchStart).toNat + 1) busy searchEnd searchStart []
            if avail.isEmpty then
              tool_response tc.id ("It looks like " ++ args.date ++ " is pretty packed. Would you like to try a different day?")
            else tool_response tc.id "I have these slots open. Which works best for you?"

def available_slots (env : ToolEnv) (b : VapiBody) : Response :=
  match extract_tool_call b with
  | none => invalid_tool_call_response
  | some tc => available_slots_body env tc

theorem schedule_event_body_shape (env : ToolEnv) (tc : ToolCall) :
    ∃ msg, schedule_event_body env tc = tool_response tc.id msg := by
  unfold schedule_event_body
  try dsimp only
  repeat' split
  all_goals exact ⟨_, rfl⟩

theorem check_availability_body_shape (env : ToolEnv) (tc : ToolCall) :
    ∃ msg, check_availability_body env tc = tool_response tc.id msg := by
  unfold check_availability_body
  try dsimp only
  repeat' split
  all_goals exact ⟨_, rfl⟩

theorem available_slots_body_shape (env : ToolEnv) (tc : ToolCall) :
    ∃ msg, available_slots_body env tc = tool_response tc.id msg := by
  unfold available_slots_body
  try dsimp only
  repeat' split
  all_goals exact ⟨_, rfl⟩

def wToolEnv : ToolEnv :=
  { parse_schedule := fun _ => none, parse_check := fun _ => none,
    parse_slots := fun _ => none, authenticated := false,
    parse_dt := fun _ _ _ => none, check_conflicts := fun _ _ => none,
    create_event := fun _ => none }

def wEmptyBody : VapiBody :=
  { message_toolCalls := [], message_toolCall := none, body_function := none }

/-- C7 counterexample: a request body from which no tool call can be
extracted is answered with HTTP 400, not with a successful transport
status - so the response is not always HTTP 200. -/
theorem tool_endpoint_not_always_200 :
    (schedule_event wToolEnv wEmptyBody).status = 400 ∧
    ¬ (schedule_event wToolEnv wEmptyBody).status = 200 ∧
    ¬ (check_availability wToolEnv wEmptyBody).status = 200 ∧
    ¬ (available_slots wToolEnv wEmptyBody).status = 200 := by
  decide

/-- C7 (amended): for every request from which a tool call is extractable,
each of the three tool endpoints answers with HTTP 200 wrapping
`[ ⟨toolCallId, result⟩ ]`, every failure mode included; only requests
with no extractable tool call are rejected with HTTP 400. -/
theorem tool_endpoints_200_when_extractable (env : ToolEnv) (b : VapiBody)
    (tc : ToolCall) (h : extract_tool_call b = some tc) :
    ((schedule_event env b).status = 200 ∧
      ∃ msg, (schedule_event env b).results = some [⟨tc.id, msg⟩]) ∧
    ((check_availability env b).status = 200 ∧
      ∃ msg, (check_availability env b).results = some [⟨tc.id, msg⟩]) ∧
    ((available_slots env b).status = 200 ∧
      ∃ msg, (available_slots env b).results = some [⟨tc.id, msg⟩]) := by
  have h1 : schedule_event env b = schedule_event_body env tc := by
    simp [schedule_event, h]
  have h2 : check_availability env b = check_availability_body env tc := by
    simp [check_availability, h]
  have h3 : available_slots env b = available_slots_body env tc := by
    simp [available_slots, h]
  obtain ⟨m1, hm1⟩ := schedule_event_body_shape env tc
  obtain ⟨m2, hm2⟩ := check_availability_body_shape env tc
  obtain ⟨m3, hm3⟩ := available_slots_body_shape env tc
  rw [h1, h2, h3, hm1, hm2, hm3]
  exact ⟨⟨rfl, m1, rfl⟩, ⟨rfl, m2, rfl⟩, ⟨rfl, m3, rfl⟩⟩

def wToolBody : VapiBody :=
  { message_toolCalls := [⟨"tc-1", "rawargs"⟩], message_toolCall := none,
    body_function := none }

/-- Witness for `tool_endpoints_200_when_extractable`. -/
theorem tool_endpoints_200_when_extractable_witness :
    (schedule_event wToolEnv wToolBody).status = 200 ∧
    (check_availability wToolEnv wToolBody).status = 200 ∧
    (available_slots wToolEnv wToolBody).status = 200 := by
  have h := tool_endpoints_200_when_extractable wToolEnv wToolBody
    ⟨"tc-1", "rawargs"⟩ (by decide)
  exact ⟨h.1.1, h.2.1.1, h.2.2.1⟩

end VoiceAgent
